import Mathlib

/-!
Verification development for the "Liquid Reveal" WebGL fluid-simulation
script (`script.js`).  The definitions below are a shallow embedding of the
script's state and its per-tick control flow: machine floats are modelled as
rationals, GPU textures as lists of rational samples, and the per-stage
shader outputs (whose sources live outside the script) as an abstract
semantics parameter `GpuSem`.  Theorems about the transition state machine,
the solver schedule, resize handling and startup follow the code line by
line.
-/

/-- Configuration constants, mirroring the `CONFIG` object of the script. -/
structure Config where
  SIM_RESOLUTION : Nat
  DYE_RESOLUTION : Nat
  DENSITY_DISSIPATION : ℚ
  VELOCITY_DISSIPATION : ℚ
  PRESSURE_ITERATIONS : Nat
  SPLAT_RADIUS : ℚ
  SPLAT_FORCE : ℚ
  REVEAL_THRESHOLD : ℚ
  IMAGES : List String
deriving Repr

/-- The concrete `CONFIG` literal from the top of the script. -/
def CONFIG : Config :=
  { SIM_RESOLUTION := 128
    DYE_RESOLUTION := 512
    DENSITY_DISSIPATION := 1
    VELOCITY_DISSIPATION := 85/100
    PRESSURE_ITERATIONS := 8
    SPLAT_RADIUS := 4/1000
    SPLAT_FORCE := 6000
    REVEAL_THRESHOLD := 65/100
    IMAGES := ["resources/p1.jpg", "resources/p2.jpg",
               "resources/p3.jpg", "resources/p4.jpg"] }

/-- Number of image textures: `imageTextures = CONFIG.IMAGES.map(loadImageTexture)`,
so its length is the length of `CONFIG.IMAGES`. -/
def imageCount : Nat := CONFIG.IMAGES.length

/-- Source: `const TRANSITION_DURATION = 1200` (milliseconds). -/
def TRANSITION_DURATION : ℚ := 1200

/-- Source: `const ADVANCE_ENERGY = 8000`. -/
def ADVANCE_ENERGY : ℚ := 8000

/-- A framebuffer-backed texture as produced by `createFBO`: dimensions plus
the RGBA sample data (4 rational components per texel).  `createFBO` clears
the freshly allocated texture, so its data starts as all zeros. -/
structure FBO where
  width : Nat
  height : Nat
  data : List ℚ
deriving DecidableEq, Repr

/-- Source: `createFBO(w, h)`: allocate a `w×h` RGBA float texture and clear it to
zero (`gl.clear` with the default zero clear color). -/
def createFBO (w h : Nat) : FBO :=
  { width := w, height := h, data := List.replicate (w * h * 4) 0 }

/-- Source: `texelX = 1.0 / w` of an FBO. -/
def FBO.texelX (f : FBO) : ℚ := 1 / (f.width : ℚ)

/-- Source: `texelY = 1.0 / h` of an FBO. -/
def FBO.texelY (f : FBO) : ℚ := 1 / (f.height : ℚ)

/-- Source: `gl.clear` on an FBO's framebuffer: the sample data becomes all zeros
while the texture dimensions are untouched. -/
def FBO.clear (f : FBO) : FBO :=
  { f with data := List.replicate (f.width * f.height * 4) 0 }

/-- The object returned by `createDoubleFBO`: two FBOs `a` and `b`;
`read()` returns `a` and `write()` returns `b`. -/
structure DoubleFBO where
  width : Nat
  height : Nat
  a : FBO
  b : FBO
deriving DecidableEq, Repr

/-- Source: `createDoubleFBO(w, h)`: two freshly created (zero-cleared) FBOs. -/
def createDoubleFBO (w h : Nat) : DoubleFBO :=
  { width := w, height := h, a := createFBO w h, b := createFBO w h }

/-- Source: `read: () => a`. -/
def DoubleFBO.read (d : DoubleFBO) : FBO := d.a

/-- Source: `write: () => b`. -/
def DoubleFBO.write (d : DoubleFBO) : FBO := d.b

/-- Source: `swap() { [a, b] = [b, a]; }` — the two buffers exchange roles; neither
buffer's contents are touched. -/
def DoubleFBO.swap (d : DoubleFBO) : DoubleFBO :=
  { d with a := d.b, b := d.a }

/-- Writing `data` into the `write` side (a `drawQuad(target.write())` whose
shader output is `data`) followed by the caller's `swap()`. -/
def DoubleFBO.writeAndSwap (d : DoubleFBO) (data : List ℚ) : DoubleFBO :=
  DoubleFBO.swap { d with b := { d.b with data := data } }

/-- The four simulation fields held at module scope:
`velocity`, `dye`, `divergence`, `pressure`. -/
structure Fields where
  velocity : DoubleFBO
  dye : DoubleFBO
  divergence : FBO
  pressure : DoubleFBO
deriving DecidableEq, Repr

/-- Arguments of an `addSplat(x, y, dx, dy, color)` call. -/
structure SplatArgs where
  x : ℚ
  y : ℚ
  dx : ℚ
  dy : ℚ
  colR : ℚ
  colG : ℚ
  colB : ℚ
deriving DecidableEq, Repr

/-- Modelled from the spec: the fragment-shader programs live in the HTML
page, outside the script, so each compute stage's output data is abstracted
as a pure function of the readable fields and the stage's uniforms
("a fixed program — pure function of its inputs and uniform parameters").
A `GpuSem` supplies those functions. -/
structure GpuSem where
  advVelData : Fields → ℚ → List ℚ
  advDyeData : Fields → ℚ → List ℚ
  divData : Fields → List ℚ
  prsData : Fields → List ℚ
  gradData : Fields → List ℚ
  splatVelData : Fields → SplatArgs → List ℚ
  splatDyeData : Fields → SplatArgs → List ℚ

/-- A trivial stage semantics (every stage outputs an empty sample list);
used only to instantiate theorems at concrete inputs. -/
def trivialGpu : GpuSem :=
  { advVelData := fun _ _ => []
    advDyeData := fun _ _ => []
    divData := fun _ => []
    prsData := fun _ => []
    gradData := fun _ => []
    splatVelData := fun _ _ => []
    splatDyeData := fun _ _ => [] }

/-- One GPU operation issued by `step`, recorded with the uniform values the
claims talk about: an advection draw carries its dissipation factor and
whether its source is the dye field. -/
inductive StageOp where
  | advect (dissipation : ℚ) (isDye : Bool)
  | divergenceOp
  | pressureOp
  | swapPressure
  | gradientSubtractOp
deriving DecidableEq, Repr

/-- The pressure loop of `step`:
`for (i = 0; i < CONFIG.PRESSURE_ITERATIONS; i++) { drawQuad(pressure.write()); pressure.swap(); }`,
returning the resulting fields together with the trace of issued operations. -/
def pressureLoop (g : GpuSem) : Nat → Fields → Fields × List StageOp
  | 0, f => (f, [])
  | Nat.succ n, f =>
      let f1 := { f with pressure := f.pressure.writeAndSwap (g.prsData f) }
      let r := pressureLoop g n f1
      (r.1, StageOp.pressureOp :: StageOp.swapPressure :: r.2)

/-- Source: `step(dt)`: velocity self-advection, dye advection, divergence, the
pressure relaxation loop, then gradient subtraction — each `drawQuad` into a
double FBO's write side followed by the `swap()` from the source.  Returns
the updated fields and the trace of issued stage operations. -/
def stepRun (g : GpuSem) (f : Fields) (dt : ℚ) : Fields × List StageOp :=
  let f1 := { f with velocity := f.velocity.writeAndSwap (g.advVelData f dt) }
  let f2 := { f1 with dye := f1.dye.writeAndSwap (g.advDyeData f1 dt) }
  let f3 := { f2 with divergence := { f2.divergence with data := g.divData f2 } }
  let pr := pressureLoop g CONFIG.PRESSURE_ITERATIONS f3
  let f4 := pr.1
  let f5 := { f4 with velocity := f4.velocity.writeAndSwap (g.gradData f4) }
  (f5,
   StageOp.advect CONFIG.VELOCITY_DISSIPATION false ::
   StageOp.advect CONFIG.DENSITY_DISSIPATION true ::
   StageOp.divergenceOp :: (pr.2 ++ [StageOp.gradientSubtractOp]))

/-- The pointer object: position, last displacement, and the edge-triggered
`moved` flag. -/
structure Pointer where
  x : ℚ
  y : ℚ
  dx : ℚ
  dy : ℚ
  moved : Bool
deriving DecidableEq, Repr

/-- The module-scope mutable state of the script: canvas size, the four
fields, the image-cycling state, reveal energy, pointer and frame clock. -/
structure SimState where
  canvasW : Nat
  canvasH : Nat
  fields : Fields
  currentImageIdx : Nat
  nextImageIdx : Nat
  blendFactor : ℚ
  isTransitioning : Bool
  transitionStart : ℚ
  totalSplatEnergy : ℚ
  pointer : Pointer
  lastTime : ℚ
deriving DecidableEq, Repr

/-- Source: `startTransition()`: set `isTransitioning` and record the start time
(`performance.now()`, modelled as the current tick's clock value). -/
def startTransition (s : SimState) (now : ℚ) : SimState :=
  { s with isTransitioning := true, transitionStart := now }

/-- Source: `checkAdvance()`: no-op while transitioning; otherwise start a
transition exactly when `totalSplatEnergy > ADVANCE_ENERGY`. -/
def checkAdvance (s : SimState) (now : ℚ) : SimState :=
  if s.isTransitioning then s
  else if s.totalSplatEnergy > ADVANCE_ENERGY then startTransition s now
  else s

/-- Source: `clearDye()`: clear both the read and the write FBO of the dye field. -/
def clearDye (s : SimState) : SimState :=
  { s with fields :=
      { s.fields with dye :=
          { s.fields.dye with a := s.fields.dye.a.clear, b := s.fields.dye.b.clear } } }

/-- Source: `updateTransition(now)`: while transitioning, set
`blendFactor = min((now - transitionStart) / TRANSITION_DURATION, 1)`; once
that value reaches 1, rotate the image indices, zero the blend factor and
the splat energy, leave the transitioning state and clear the dye field. -/
def updateTransition (s : SimState) (now : ℚ) : SimState :=
  if s.isTransitioning then
    let t := min ((now - s.transitionStart) / TRANSITION_DURATION) 1
    let s1 := { s with blendFactor := t }
    if 1 ≤ t then
      clearDye { s1 with
        currentImageIdx := s1.nextImageIdx
        nextImageIdx := (s1.nextImageIdx + 1) % imageCount
        blendFactor := 0
        isTransitioning := false
        totalSplatEnergy := 0 }
    else s1
  else s

/-- Source: `addSplat(x, y, dx, dy, color)`: one splat draw into the velocity field
followed by `velocity.swap()`, then one splat draw into the dye field
followed by `dye.swap()`; nothing else changes. -/
def addSplat (g : GpuSem) (s : SimState) (x y dx dy cr cg cb : ℚ) : SimState :=
  let args : SplatArgs := ⟨x, y, dx, dy, cr, cg, cb⟩
  let f1 := { s.fields with velocity := s.fields.velocity.writeAndSwap (g.splatVelData s.fields args) }
  let f2 := { f1 with dye := f1.dye.writeAndSwap (g.splatDyeData f1 args) }
  { s with fields := f2 }

/-- Source: `const dt = Math.min((now - lastTime) / 1000, 0.016)` — the elapsed
milliseconds converted to seconds and capped at 0.016 s, the code's
"60 fps equivalent" upper bound. -/
def clampDt (elapsedMs : ℚ) : ℚ := min (elapsedMs / 1000) (16/1000)

/-- The pointer block at the top of `render()`: when `pointer.moved`,
compute the speed (`Math.sqrt`, supplied as the abstract function `sq`
because exact square roots leave the rationals), issue `addSplat` with the
force-scaled displacement and the fixed light color, add the speed to
`totalSplatEnergy`, clear the `moved` flag, then `checkAdvance()`. -/
def pointerPhase (sq : ℚ → ℚ) (g : GpuSem) (s : SimState) (now dt : ℚ) : SimState :=
  if s.pointer.moved then
    let speed := sq (s.pointer.dx * s.pointer.dx + s.pointer.dy * s.pointer.dy)
    let sA := addSplat g s s.pointer.x s.pointer.y
        (s.pointer.dx * CONFIG.SPLAT_FORCE * dt)
        (s.pointer.dy * CONFIG.SPLAT_FORCE * dt)
        (9/10) (85/100) (8/10)
    let sB := { sA with totalSplatEnergy := sA.totalSplatEnergy + speed
                        pointer := { sA.pointer with moved := false } }
    checkAdvance sB now
  else s

/-- One call of `render()` up to (and excluding) the pure display draw:
update `lastTime`, run the pointer block, run `step(dt)`, then
`updateTransition(now)`.  The final display draw only reads state. -/
def renderTick (sq : ℚ → ℚ) (g : GpuSem) (s : SimState) (now : ℚ) : SimState :=
  let dt := clampDt (now - s.lastTime)
  let s0 := { s with lastTime := now }
  let s1 := pointerPhase sq g s0 now dt
  let s2 := { s1 with fields := (stepRun g s1.fields dt).1 }
  updateTransition s2 now

/-- A `mousemove`/`touchmove` event, given by client coordinates and the
canvas bounding-rectangle offset. -/
structure MouseEvent where
  clientX : ℚ
  clientY : ℚ
  rectLeft : ℚ
  rectTop : ℚ
deriving DecidableEq, Repr

/-- Source: `onMouseMove(e)`: update the pointer position and displacement and
raise the `moved` flag. -/
def onMouseMove (s : SimState) (e : MouseEvent) : SimState :=
  let x := e.clientX - e.rectLeft
  let y := e.clientY - e.rectTop
  { s with pointer :=
      { x := x, y := y, dx := x - s.pointer.x, dy := y - s.pointer.y, moved := true } }

/-- Input of one animation frame: the pointer events delivered since the
previous frame, then the frame's clock value. -/
structure FrameInput where
  events : List MouseEvent
  now : ℚ

/-- Deliver a list of pointer events in order. -/
def applyEvents (s : SimState) : List MouseEvent → SimState
  | [] => s
  | e :: rest => applyEvents (onMouseMove s e) rest

/-- Run a sequence of frames: for each frame, deliver its pointer events
and then execute one `render()` tick. -/
def runFrames (sq : ℚ → ℚ) (g : GpuSem) : List FrameInput → SimState → SimState
  | [], s => s
  | f :: rest, s => runFrames sq g rest (renderTick sq g (applyEvents s f.events) f.now)

/-- JavaScript `Math.round`: round half toward positive infinity. -/
def jsRound (q : ℚ) : ℤ := Int.floor (q + 1/2)

/-- Source: `getRes(target)`: derive the simulation grid resolution from the
drawing-buffer aspect ratio. -/
def getRes (bw bh : Nat) (target : ℚ) : Nat × Nat :=
  let aspect : ℚ := (bw : ℚ) / (bh : ℚ)
  let a := if aspect < 1 then 1 / aspect else aspect
  let mn := (jsRound target).toNat
  let mx := (jsRound (target * a)).toNat
  if bw > bh then (mx, mn) else (mn, mx)

/-- Allocate the four simulation fields at the resolutions computed by
`getRes` for the given drawing-buffer size (lines creating `velocity`,
`dye`, `divergence` and `pressure`). -/
def allocFields (bw bh : Nat) : Fields :=
  let simRes := getRes bw bh (CONFIG.SIM_RESOLUTION : ℚ)
  let dyeRes := getRes bw bh (CONFIG.DYE_RESOLUTION : ℚ)
  { velocity := createDoubleFBO simRes.1 simRes.2
    dye := createDoubleFBO dyeRes.1 dyeRes.2
    divergence := createFBO simRes.1 simRes.2
    pressure := createDoubleFBO simRes.1 simRes.2 }

/-- The `resize` listener: update the canvas size and recreate all four
fields at the new resolutions; no other state variable is touched. -/
def resize (s : SimState) (winW winH : Nat) : SimState :=
  { s with canvasW := winW, canvasH := winH, fields := allocFields winW winH }

/-- The module-scope initial state: indices `0`/`1`, no transition, zero
energy, pointer at the canvas center with no displacement, fields freshly
allocated for the given window size. -/
def initialState (winW winH : Nat) : SimState :=
  { canvasW := winW
    canvasH := winH
    fields := allocFields winW winH
    currentImageIdx := 0
    nextImageIdx := 1
    blendFactor := 0
    isTransitioning := false
    transitionStart := 0
    totalSplatEnergy := 0
    pointer := { x := (winW : ℚ) / 2, y := (winH : ℚ) / 2, dx := 0, dy := 0, moved := false }
    lastTime := 0 }

/-- External outcomes of shader compilation and program linking at startup:
one flag for the shared vertex shader, and per program one flag for its
fragment shader compile and one for the link step. -/
structure ProgramOutcomes where
  vertOk : Bool
  advFragOk : Bool
  divFragOk : Bool
  prsFragOk : Bool
  grdFragOk : Bool
  splFragOk : Bool
  dspFragOk : Bool
  advLinkOk : Bool
  divLinkOk : Bool
  prsLinkOk : Bool
  grdLinkOk : Bool
  splLinkOk : Bool
  dspLinkOk : Bool
deriving DecidableEq, Repr

/-- Source: `compileShader`: on failure log a diagnostic (`console.error`), delete
the shader and return `null`; on success return the shader. -/
def compileShader (ok : Bool) : Option Unit × List String :=
  if ok then (some (), []) else (none, ["Shader compile error"])

/-- Source: `createProgram` (lines 61-81).  Both shaders are compiled first
(each failure logs its own diagnostic and yields `null`), then
`gl.attachShader(prog, vert)` and `gl.attachShader(prog, frag)` run.  The
`attachShader` parameter is non-nullable in the WebGL IDL, so passing a
`null` shader throws a `TypeError` that halts the whole script — modelled
by the first component being `none`.  Otherwise the program is linked: on
`LINK_STATUS` false a diagnostic is logged and `null` is returned
(`some none`); on success the program is returned (`some (some ())`).
There is no retry and no fallback program. -/
def createProgram (vertOk fragOk linkOk : Bool) : Option (Option Unit) × List String :=
  let v := compileShader vertOk
  let f := compileShader fragOk
  if vertOk = false then (none, v.2 ++ f.2)
  else if fragOk = false then (none, v.2 ++ f.2)
  else if linkOk then (some (some ()), v.2 ++ f.2)
  else (some none, v.2 ++ f.2 ++ ["Program link error"])

/-- All seven shader compiles succeed: the shared vertex shader and the six
per-program fragment shaders. -/
def compilesOk (o : ProgramOutcomes) : Bool :=
  o.vertOk && o.advFragOk && o.divFragOk && o.prsFragOk &&
  o.grdFragOk && o.splFragOk && o.dspFragOk

/-- The six linked programs (each possibly `null`). -/
structure Programs where
  advection : Option Unit
  divergence : Option Unit
  pressure : Option Unit
  gradientSubtract : Option Unit
  splat : Option Unit
  display : Option Unit
deriving DecidableEq, Repr

/-- The programs object obtained when every shader compiles: each program is
`null` exactly when its own link step failed. -/
def linkedPrograms (o : ProgramOutcomes) : Programs :=
  { advection := if o.advLinkOk then some () else none
    divergence := if o.divLinkOk then some () else none
    pressure := if o.prsLinkOk then some () else none
    gradientSubtract := if o.grdLinkOk then some () else none
    splat := if o.splLinkOk then some () else none
    display := if o.dspLinkOk then some () else none }

/-- Result of running the top-level script: the programs object if the
program-building block completed (`none` if an `attachShader` `TypeError`
halted the script first), the diagnostics logged, the builds attempted in
order, and whether the final `render()` call was reached. -/
structure StartupResult where
  programs : Option Programs
  diagnostics : List String
  builds : List String
  renderEntered : Bool
deriving DecidableEq, Repr

/-- The top-level script run: build the six programs in source order
(lines 91-98).  A `createProgram` call that throws (`TypeError` at
`gl.attachShader` with a `null` shader, i.e. after a failed compile) halts
the remaining top-level script — later programs are not built and the final
`render()` call (line 426) is never reached.  A call that merely returns a
`null` program (link failure) lets execution continue, and `render()` is
then invoked with no success check whatsoever. -/
def startup (o : ProgramOutcomes) : StartupResult :=
  let adv := createProgram o.vertOk o.advFragOk o.advLinkOk
  match adv.1 with
  | none =>
      { programs := none, diagnostics := adv.2
        builds := ["advection"], renderEntered := false }
  | some pAdv =>
  let dvg := createProgram o.vertOk o.divFragOk o.divLinkOk
  match dvg.1 with
  | none =>
      { programs := none, diagnostics := adv.2 ++ dvg.2
        builds := ["advection", "divergence"], renderEntered := false }
  | some pDvg =>
  let prs := createProgram o.vertOk o.prsFragOk o.prsLinkOk
  match prs.1 with
  | none =>
      { programs := none, diagnostics := adv.2 ++ dvg.2 ++ prs.2
        builds := ["advection", "divergence", "pressure"], renderEntered := false }
  | some pPrs =>
  let grd := createProgram o.vertOk o.grdFragOk o.grdLinkOk
  match grd.1 with
  | none =>
      { programs := none, diagnostics := adv.2 ++ dvg.2 ++ prs.2 ++ grd.2
        builds := ["advection", "divergence", "pressure", "gradientSubtract"]
        renderEntered := false }
  | some pGrd =>
  let spl := createProgram o.vertOk o.splFragOk o.splLinkOk
  match spl.1 with
  | none =>
      { programs := none, diagnostics := adv.2 ++ dvg.2 ++ prs.2 ++ grd.2 ++ spl.2
        builds := ["advection", "divergence", "pressure", "gradientSubtract", "splat"]
        renderEntered := false }
  | some pSpl =>
  let dsp := createProgram o.vertOk o.dspFragOk o.dspLinkOk
  match dsp.1 with
  | none =>
      { programs := none, diagnostics := adv.2 ++ dvg.2 ++ prs.2 ++ grd.2 ++ spl.2 ++ dsp.2
        builds := ["advection", "divergence", "pressure", "gradientSubtract", "splat", "display"]
        renderEntered := false }
  | some pDsp =>
      { programs := some
          { advection := pAdv, divergence := pDvg, pressure := pPrs
            gradientSubtract := pGrd, splat := pSpl, display := pDsp }
        diagnostics := adv.2 ++ dvg.2 ++ prs.2 ++ grd.2 ++ spl.2 ++ dsp.2
        builds := ["advection", "divergence", "pressure", "gradientSubtract", "splat", "display"]
        renderEntered := true }

/-- The first `render()` frame starts with `pointer.moved = false`, so it
dereferences `programs.advection`, `.divergence`, `.pressure`,
`.gradientSubtract` and `.display` (in that order); reading `.program` of a
`null` entry throws a `TypeError`, killing the frame before
`requestAnimationFrame` can schedule the next one. -/
def firstFrameThrows (ps : Programs) : Bool :=
  ps.advection.isNone || ps.divergence.isNone || ps.pressure.isNone ||
  ps.gradientSubtract.isNone || ps.display.isNone

/-- Fixture: 1×1 fields for concrete witness states. -/
def tinyFields : Fields :=
  { velocity := createDoubleFBO 1 1
    dye := createDoubleFBO 1 1
    divergence := createFBO 1 1
    pressure := createDoubleFBO 1 1 }

/-- Fixture: a small idle state used to instantiate theorems. -/
def tinyState : SimState :=
  { canvasW := 1
    canvasH := 1
    fields := tinyFields
    currentImageIdx := 0
    nextImageIdx := 1
    blendFactor := 0
    isTransitioning := false
    transitionStart := 0
    totalSplatEnergy := 0
    pointer := { x := 0, y := 0, dx := 0, dy := 0, moved := false }
    lastTime := 0 }

/-- Source: `clamp(x, lo, hi)` in the usual sense, used to phrase the spec's
blend-factor law. -/
def clamp (x lo hi : ℚ) : ℚ := max lo (min x hi)

/-- The state reached by one tick just before `updateTransition`: pointer
phase applied to the state with the updated clock. -/
def prePhase (sq : ℚ → ℚ) (g : GpuSem) (s : SimState) (now : ℚ) : SimState :=
  pointerPhase sq g { s with lastTime := now } now (clampDt (now - s.lastTime))

/-- The state after the pointer phase and `step(dt)` of one tick. -/
def postStep (sq : ℚ → ℚ) (g : GpuSem) (s : SimState) (now : ℚ) : SimState :=
  { prePhase sq g s now with
    fields := (stepRun g (prePhase sq g s now).fields (clampDt (now - s.lastTime))).1 }

/-- Fixture: the everywhere-zero square-root stand-in. -/
def sqZero : ℚ → ℚ := fun _ => 0

/-- Fixture: startup outcomes where every shader compiles but the advection
program fails to link. -/
def failOutcomes : ProgramOutcomes :=
  { vertOk := true
    advFragOk := true, divFragOk := true, prsFragOk := true
    grdFragOk := true, splFragOk := true, dspFragOk := true
    advLinkOk := false, divLinkOk := true, prsLinkOk := true
    grdLinkOk := true, splLinkOk := true, dspLinkOk := true }

/-- Fixture: startup outcomes where the advection fragment shader fails to
compile and everything else is fine. -/
def compileFailOutcomes : ProgramOutcomes :=
  { vertOk := true
    advFragOk := false, divFragOk := true, prsFragOk := true
    grdFragOk := true, splFragOk := true, dspFragOk := true
    advLinkOk := true, divLinkOk := true, prsLinkOk := true
    grdLinkOk := true, splLinkOk := true, dspLinkOk := true }

/-- Fixture: a square-root stand-in defined at the inputs the witnesses
use: the square of 8001 and the square of the displacement (3,4). -/
def sqTable : ℚ → ℚ :=
  fun q => if q = 8001 * 8001 then 8001 else if q = 25 then 5 else 0

theorem checkAdvance_energy (s : SimState) (now : ℚ) :
    (checkAdvance s now).totalSplatEnergy = s.totalSplatEnergy := by
  unfold checkAdvance startTransition
  split
  · rfl
  · split <;> rfl

theorem checkAdvance_of_transitioning (s : SimState) (now : ℚ)
    (h : s.isTransitioning = true) : checkAdvance s now = s := by
  unfold checkAdvance
  simp [h]

theorem updateTransition_of_not (s : SimState) (now : ℚ)
    (h : s.isTransitioning = false) : updateTransition s now = s := by
  unfold updateTransition
  simp [h]

theorem updateTransition_progress (s : SimState) (now : ℚ)
    (h : s.isTransitioning = true)
    (hr : (now - s.transitionStart) / TRANSITION_DURATION < 1) :
    updateTransition s now
      = { s with blendFactor := (now - s.transitionStart) / TRANSITION_DURATION } := by
  unfold updateTransition
  rw [if_pos h]
  simp only [min_eq_left hr.le, if_neg (not_le.mpr hr)]

theorem updateTransition_complete (s : SimState) (now : ℚ)
    (h : s.isTransitioning = true)
    (hr : 1 ≤ (now - s.transitionStart) / TRANSITION_DURATION) :
    updateTransition s now
      = clearDye { s with
          currentImageIdx := s.nextImageIdx
          nextImageIdx := (s.nextImageIdx + 1) % imageCount
          blendFactor := 0
          isTransitioning := false
          totalSplatEnergy := 0 } := by
  unfold updateTransition
  rw [if_pos h]
  simp only [min_eq_right hr, if_pos (le_refl (1 : ℚ))]

theorem updateTransition_energy (s : SimState) (now : ℚ) :
    (updateTransition s now).totalSplatEnergy = s.totalSplatEnergy ∨
    (updateTransition s now).totalSplatEnergy = 0 := by
  unfold updateTransition clearDye
  split
  · dsimp only
    split
    · exact Or.inr rfl
    · exact Or.inl rfl
  · exact Or.inl rfl

theorem updateTransition_energy_zero_of_edge (s : SimState) (now : ℚ)
    (h : s.isTransitioning = true)
    (h2 : (updateTransition s now).isTransitioning = false) :
    (updateTransition s now).totalSplatEnergy = 0 := by
  by_cases hr : 1 ≤ (now - s.transitionStart) / TRANSITION_DURATION
  · rw [updateTransition_complete s now h hr]
    rfl
  · rw [updateTransition_progress s now h (not_le.mp hr)] at h2
    rw [h] at h2
    exact absurd h2 (by simp)

theorem pointerPhase_energy (sq : ℚ → ℚ) (g : GpuSem) (s : SimState) (now dt : ℚ) :
    (pointerPhase sq g s now dt).totalSplatEnergy
      = s.totalSplatEnergy
        + (if s.pointer.moved then
             sq (s.pointer.dx * s.pointer.dx + s.pointer.dy * s.pointer.dy)
           else 0) := by
  unfold pointerPhase
  by_cases hm : s.pointer.moved
  · rw [if_pos hm, if_pos hm]
    dsimp only
    rw [checkAdvance_energy]
    rfl
  · rw [if_neg hm, if_neg hm, add_zero]

theorem pointerPhase_of_transitioning (sq : ℚ → ℚ) (g : GpuSem) (s : SimState)
    (now dt : ℚ) (h : s.isTransitioning = true) :
    (pointerPhase sq g s now dt).isTransitioning = true ∧
    (pointerPhase sq g s now dt).transitionStart = s.transitionStart := by
  unfold pointerPhase
  by_cases hm : s.pointer.moved
  · rw [if_pos hm]
    dsimp only
    rw [checkAdvance_of_transitioning _ _ (by exact h)]
    exact ⟨h, rfl⟩
  · rw [if_neg hm]
    exact ⟨h, rfl⟩

theorem pointerPhase_of_idle (sq : ℚ → ℚ) (g : GpuSem) (s : SimState)
    (now dt : ℚ) (h : s.isTransitioning = false) :
    (pointerPhase sq g s now dt).isTransitioning = false ∨
    ((pointerPhase sq g s now dt).isTransitioning = true ∧
     (pointerPhase sq g s now dt).transitionStart = now) := by
  unfold pointerPhase checkAdvance startTransition
  by_cases hm : s.pointer.moved
  · rw [if_pos hm]
    dsimp only
    split
    · exact Or.inl h
    · split
      · exact Or.inr ⟨rfl, rfl⟩
      · exact Or.inl h
  · rw [if_neg hm]
    exact Or.inl h

theorem renderTick_eq (sq : ℚ → ℚ) (g : GpuSem) (s : SimState) (now : ℚ) :
    renderTick sq g s now = updateTransition (postStep sq g s now) now := rfl

theorem postStep_energy (sq : ℚ → ℚ) (g : GpuSem) (s : SimState) (now : ℚ) :
    (postStep sq g s now).totalSplatEnergy
      = s.totalSplatEnergy
        + (if s.pointer.moved then
             sq (s.pointer.dx * s.pointer.dx + s.pointer.dy * s.pointer.dy)
           else 0) :=
  pointerPhase_energy sq g { s with lastTime := now } now (clampDt (now - s.lastTime))

theorem postStep_of_transitioning (sq : ℚ → ℚ) (g : GpuSem) (s : SimState)
    (now : ℚ) (h : s.isTransitioning = true) :
    (postStep sq g s now).isTransitioning = true ∧
    (postStep sq g s now).transitionStart = s.transitionStart :=
  pointerPhase_of_transitioning sq g { s with lastTime := now } now
    (clampDt (now - s.lastTime)) h

theorem postStep_of_idle (sq : ℚ → ℚ) (g : GpuSem) (s : SimState)
    (now : ℚ) (h : s.isTransitioning = false) :
    (postStep sq g s now).isTransitioning = false ∨
    ((postStep sq g s now).isTransitioning = true ∧
     (postStep sq g s now).transitionStart = now) :=
  pointerPhase_of_idle sq g { s with lastTime := now } now
    (clampDt (now - s.lastTime)) h

theorem onMouseMove_energy (s : SimState) (e : MouseEvent) :
    (onMouseMove s e).totalSplatEnergy = s.totalSplatEnergy := rfl

theorem applyEvents_energy (evs : List MouseEvent) (s : SimState) :
    (applyEvents s evs).totalSplatEnergy = s.totalSplatEnergy := by
  induction evs generalizing s with
  | nil => rfl
  | cons e rest ih => exact ih (onMouseMove s e)

theorem speed_arg_nonneg (dx dy : ℚ) : 0 ≤ dx * dx + dy * dy :=
  add_nonneg (mul_self_nonneg dx) (mul_self_nonneg dy)

theorem renderTick_energy_nonneg (sq : ℚ → ℚ) (g : GpuSem)
    (hsq : ∀ q, 0 ≤ q → 0 ≤ sq q) (s : SimState) (now : ℚ)
    (h0 : 0 ≤ s.totalSplatEnergy) :
    0 ≤ (renderTick sq g s now).totalSplatEnergy := by
  rw [renderTick_eq]
  have hE : 0 ≤ (postStep sq g s now).totalSplatEnergy := by
    rw [postStep_energy]
    have hif : 0 ≤ (if s.pointer.moved then
        sq (s.pointer.dx * s.pointer.dx + s.pointer.dy * s.pointer.dy) else 0) := by
      split
      · exact hsq _ (speed_arg_nonneg _ _)
      · exact le_refl 0
    linarith
  rcases updateTransition_energy (postStep sq g s now) now with h | h
  · rw [h]
    exact hE
  · rw [h]

theorem stepRun_trace (g : GpuSem) (f : Fields) (dt : ℚ) :
    (stepRun g f dt).2 =
      [StageOp.advect CONFIG.VELOCITY_DISSIPATION false,
       StageOp.advect CONFIG.DENSITY_DISSIPATION true,
       StageOp.divergenceOp,
       StageOp.pressureOp, StageOp.swapPressure,
       StageOp.pressureOp, StageOp.swapPressure,
       StageOp.pressureOp, StageOp.swapPressure,
       StageOp.pressureOp, StageOp.swapPressure,
       StageOp.pressureOp, StageOp.swapPressure,
       StageOp.pressureOp, StageOp.swapPressure,
       StageOp.pressureOp, StageOp.swapPressure,
       StageOp.pressureOp, StageOp.swapPressure,
       StageOp.gradientSubtractOp] := rfl

/-- C8: a double-buffered field constructed at any `w,h ≥ 1` and swapped
twice is identical to the freshly constructed one; each single `swap`
exchanges the read/write roles and leaves both underlying buffers unchanged
(no data is copied or modified), and `swap` is an involution on every
double FBO. -/
theorem c8_doubleFBO_swap_involution (w h : Nat) (hw : 1 ≤ w) (hh : 1 ≤ h) :
    DoubleFBO.swap (DoubleFBO.swap (createDoubleFBO w h)) = createDoubleFBO w h ∧
    (∀ d : DoubleFBO, DoubleFBO.swap (DoubleFBO.swap d) = d) ∧
    (∀ d : DoubleFBO,
      (DoubleFBO.swap d).read = d.write ∧ (DoubleFBO.swap d).write = d.read ∧
      (DoubleFBO.swap d).a = d.b ∧ (DoubleFBO.swap d).b = d.a ∧
      (DoubleFBO.swap d).width = d.width ∧ (DoubleFBO.swap d).height = d.height) := by
  refine ⟨rfl, fun d => rfl, fun d => ⟨rfl, rfl, rfl, rfl, rfl, rfl⟩⟩

/-- C8 witness: the double-swap identity instantiated at resolution 1×1. -/
theorem c8_doubleFBO_swap_involution_witness :
    DoubleFBO.swap (DoubleFBO.swap (createDoubleFBO 1 1)) = createDoubleFBO 1 1 :=
  (c8_doubleFBO_swap_involution 1 1 (by decide) (by decide)).1

/-- C1: during a transition started at `t0` with duration 1200 ms, for any
later time `now` `updateTransition` writes
`blendFactor = clamp((now − t0)/D, 0, 1)` while the ratio is below 1; on the
call where the ratio first reaches 1 the machine completes exactly once:
`currentImageIdx ← nextImageIdx`, `nextImageIdx ← (nextImageIdx+1) mod
imageCount`, `blendFactor ← 0`, the state returns to idle, the splat energy
is reset to 0 and both sides of the dye double buffer are cleared to zero;
any further `updateTransition` call leaves the state unchanged (no double
trigger). -/
theorem c1_blend_clamp_and_completion (s : SimState) (t0 now : ℚ)
    (hT : s.isTransitioning = true) (h0 : s.transitionStart = t0)
    (hle : t0 ≤ now) :
    TRANSITION_DURATION = 1200 ∧
    ((now - t0) / TRANSITION_DURATION < 1 →
      updateTransition s now
        = { s with blendFactor := clamp ((now - t0) / TRANSITION_DURATION) 0 1 }) ∧
    (1 ≤ (now - t0) / TRANSITION_DURATION →
      updateTransition s now
        = clearDye { s with
            currentImageIdx := s.nextImageIdx
            nextImageIdx := (s.nextImageIdx + 1) % imageCount
            blendFactor := 0
            isTransitioning := false
            totalSplatEnergy := 0 } ∧
      (updateTransition s now).fields.dye.a.data
        = List.replicate (s.fields.dye.a.width * s.fields.dye.a.height * 4) 0 ∧
      (updateTransition s now).fields.dye.b.data
        = List.replicate (s.fields.dye.b.width * s.fields.dye.b.height * 4) 0 ∧
      (∀ later, updateTransition (updateTransition s now) later = updateTransition s now)) := by
  subst h0
  refine ⟨rfl, ?_, ?_⟩
  · intro hr
    rw [updateTransition_progress s now hT hr]
    have hge : 0 ≤ (now - s.transitionStart) / TRANSITION_DURATION :=
      div_nonneg (sub_nonneg.mpr hle) (by norm_num [TRANSITION_DURATION])
    simp only [clamp]
    rw [min_eq_left hr.le, max_eq_right hge]
  · intro hr
    rw [updateTransition_complete s now hT hr]
    refine ⟨rfl, rfl, rfl, ?_⟩
    intro later
    exact updateTransition_of_not _ _ rfl

/-- C1 witness: at the concrete completion instant 1200 ms after a
transition that started at time 0 on the 1×1 fixture, the dye read buffer
has been cleared to four zero samples. -/
theorem c1_blend_clamp_and_completion_witness :
    (updateTransition { tinyState with isTransitioning := true } 1200).fields.dye.a.data
      = List.replicate 4 0 := by
  have h := c1_blend_clamp_and_completion { tinyState with isTransitioning := true }
    0 1200 rfl rfl (by norm_num)
  exact (h.2.2 (by norm_num [TRANSITION_DURATION])).2.1

/-- C10: completing a transition clears only the dye field's two buffers;
the velocity, pressure and divergence fields, the pointer state, the frame
clock and the canvas size are untouched by the completion step, and the dye
buffers keep their dimensions (only their contents are zeroed). -/
theorem c10_completion_touches_only_dye (s : SimState) (now : ℚ)
    (h : s.isTransitioning = true)
    (hr : 1 ≤ (now - s.transitionStart) / TRANSITION_DURATION) :
    (updateTransition s now).fields.velocity = s.fields.velocity ∧
    (updateTransition s now).fields.pressure = s.fields.pressure ∧
    (updateTransition s now).fields.divergence = s.fields.divergence ∧
    (updateTransition s now).pointer = s.pointer ∧
    (updateTransition s now).lastTime = s.lastTime ∧
    (updateTransition s now).canvasW = s.canvasW ∧
    (updateTransition s now).canvasH = s.canvasH ∧
    (updateTransition s now).fields.dye.width = s.fields.dye.width ∧
    (updateTransition s now).fields.dye.height = s.fields.dye.height ∧
    (updateTransition s now).fields.dye.a = FBO.clear s.fields.dye.a ∧
    (updateTransition s now).fields.dye.b = FBO.clear s.fields.dye.b := by
  rw [updateTransition_complete s now h hr]
  exact ⟨rfl, rfl, rfl, rfl, rfl, rfl, rfl, rfl, rfl, rfl, rfl⟩

/-- C10 witness: completion at time 1200 on the 1×1 fixture leaves the
velocity field exactly as it was. -/
theorem c10_completion_touches_only_dye_witness :
    (updateTransition { tinyState with isTransitioning := true } 1200).fields.velocity
      = { tinyState with isTransitioning := true }.fields.velocity :=
  (c10_completion_touches_only_dye { tinyState with isTransitioning := true } 1200 rfl
    (by norm_num [tinyState, TRANSITION_DURATION])).1

/-- C3: the accumulated splat energy starts at 0, stays non-negative over
every sequence of frames (for any square-root model that is non-negative on
non-negative inputs), never decreases across a tick that starts in the idle
state, and is exactly 0 after any tick that crosses the
transitioning-to-idle edge. -/
theorem c3_energy_invariants :
    (∀ w h, (initialState w h).totalSplatEnergy = 0) ∧
    (∀ (sq : ℚ → ℚ) (g : GpuSem), (∀ q, 0 ≤ q → 0 ≤ sq q) →
      (∀ (frames : List FrameInput) (s : SimState),
        0 ≤ s.totalSplatEnergy → 0 ≤ (runFrames sq g frames s).totalSplatEnergy) ∧
      (∀ (s : SimState) (now : ℚ), s.isTransitioning = false →
        s.totalSplatEnergy ≤ (renderTick sq g s now).totalSplatEnergy) ∧
      (∀ (s : SimState) (now : ℚ), s.isTransitioning = true →
        (renderTick sq g s now).isTransitioning = false →
        (renderTick sq g s now).totalSplatEnergy = 0)) := by
  refine ⟨fun w h => rfl, fun sq g hsq => ⟨?_, ?_, ?_⟩⟩
  · intro frames
    induction frames with
    | nil => exact fun s h0 => h0
    | cons f rest ih =>
        intro s h0
        exact ih _ (renderTick_energy_nonneg sq g hsq _ _
          (by rw [applyEvents_energy]; exact h0))
  · intro s now h
    rw [renderTick_eq]
    have hif : 0 ≤ (if s.pointer.moved then
        sq (s.pointer.dx * s.pointer.dx + s.pointer.dy * s.pointer.dy) else 0) := by
      split
      · exact hsq _ (speed_arg_nonneg _ _)
      · exact le_refl 0
    rcases postStep_of_idle sq g s now h with hid | ⟨ht, hts⟩
    · rw [updateTransition_of_not _ _ hid, postStep_energy]
      linarith
    · have hr : (now - (postStep sq g s now).transitionStart) / TRANSITION_DURATION < 1 := by
        rw [hts, sub_self, zero_div]
        norm_num
      rw [updateTransition_progress _ _ ht hr]
      show s.totalSplatEnergy ≤ (postStep sq g s now).totalSplatEnergy
      rw [postStep_energy]
      linarith
  · intro s now h1 h2
    rw [renderTick_eq] at h2 ⊢
    exact updateTransition_energy_zero_of_edge _ _
      (postStep_of_transitioning sq g s now h1).1 h2

/-- C3 witness: the invariants instantiated on the 1×1 fixture with the
zero square-root stand-in: energy is non-negative after an empty frame
sequence, an idle tick does not decrease it, and a tick that completes the
transition zeroes it. -/
theorem c3_energy_invariants_witness :
    0 ≤ (runFrames sqZero trivialGpu [] tinyState).totalSplatEnergy ∧
    tinyState.totalSplatEnergy ≤ (renderTick sqZero trivialGpu tinyState 0).totalSplatEnergy ∧
    (renderTick sqZero trivialGpu
        { tinyState with isTransitioning := true } 1200).totalSplatEnergy = 0 := by
  have h2 := c3_energy_invariants.2 sqZero trivialGpu (fun q _ => le_refl 0)
  have hps := postStep_of_transitioning sqZero trivialGpu
    { tinyState with isTransitioning := true } 1200 rfl
  have hr : 1 ≤ (1200 - (postStep sqZero trivialGpu
      { tinyState with isTransitioning := true } 1200).transitionStart) / TRANSITION_DURATION := by
    rw [hps.2]
    norm_num [tinyState, TRANSITION_DURATION]
  have hidle : (renderTick sqZero trivialGpu
      { tinyState with isTransitioning := true } 1200).isTransitioning = false := by
    rw [renderTick_eq, updateTransition_complete _ _ hps.1 hr]
    rfl
  exact ⟨h2.1 [] tinyState (le_refl 0), h2.2.1 tinyState 0 rfl,
    h2.2.2 _ 1200 rfl hidle⟩

/-- C5: on every tick the solver's dye-advection stage is invoked with
dissipation factor exactly 1 while its velocity-advection stage is invoked
with a dissipation factor strictly below 1 (0.85); moreover every advection
draw in a step's trace obeys this: dye draws carry 1, velocity draws carry
a value below 1. -/
theorem c5_dissipation_factors :
    CONFIG.DENSITY_DISSIPATION = 1 ∧
    CONFIG.VELOCITY_DISSIPATION < 1 ∧
    (∀ (g : GpuSem) (f : Fields) (dt : ℚ),
      StageOp.advect CONFIG.DENSITY_DISSIPATION true ∈ (stepRun g f dt).2 ∧
      StageOp.advect CONFIG.VELOCITY_DISSIPATION false ∈ (stepRun g f dt).2 ∧
      (∀ (d : ℚ) (b : Bool), StageOp.advect d b ∈ (stepRun g f dt).2 →
        (b = true → d = 1) ∧ (b = false → d < 1))) := by
  refine ⟨rfl, by norm_num [CONFIG], fun g f dt => ⟨?_, ?_, ?_⟩⟩
  · rw [stepRun_trace]
    simp
  · rw [stepRun_trace]
    simp
  · intro d b hmem
    rw [stepRun_trace] at hmem
    simp only [CONFIG, List.mem_cons, List.not_mem_nil, or_false,
      StageOp.advect.injEq, reduceCtorEq] at hmem
    rcases hmem with ⟨hd, hb⟩ | ⟨hd, hb⟩
    · subst hd
      subst hb
      exact ⟨fun hx => Bool.noConfusion hx, fun _ => by norm_num⟩
    · subst hd
      subst hb
      exact ⟨fun _ => rfl, fun hx => Bool.noConfusion hx⟩

/-- C5 witness: the dye-advection operation with dissipation exactly 1
occurs in the concrete step trace of the 1×1 fixture. -/
theorem c5_dissipation_factors_witness :
    StageOp.advect CONFIG.DENSITY_DISSIPATION true ∈ (stepRun trivialGpu tinyFields 0).2 :=
  (c5_dissipation_factors.2.2 trivialGpu tinyFields 0).1

/-- C6: every solver pass issues exactly the fixed stage sequence —
velocity self-advection, dye advection, divergence, exactly
`PRESSURE_ITERATIONS = 8` Jacobi pressure iterations each immediately
followed by a pressure swap, then gradient subtraction — and the time delta
is the elapsed seconds clamped to the 0.016 s upper bound (the code's
"60 fps equivalent" cap). -/
theorem c6_step_schedule_and_dt_clamp :
    CONFIG.PRESSURE_ITERATIONS = 8 ∧
    (∀ (g : GpuSem) (f : Fields) (dt : ℚ),
      (stepRun g f dt).2 =
        [StageOp.advect CONFIG.VELOCITY_DISSIPATION false,
         StageOp.advect CONFIG.DENSITY_DISSIPATION true,
         StageOp.divergenceOp] ++
        (List.replicate CONFIG.PRESSURE_ITERATIONS
          [StageOp.pressureOp, StageOp.swapPressure]).join ++
        [StageOp.gradientSubtractOp]) ∧
    (∀ e : ℚ, clampDt e ≤ 16/1000 ∧
      (e ≤ 16 → clampDt e = e / 1000) ∧
      (16 ≤ e → clampDt e = 16/1000)) := by
  refine ⟨rfl, fun g f dt => by rw [stepRun_trace]; rfl, fun e => ⟨min_le_right _ _, ?_, ?_⟩⟩
  · intro he
    exact min_eq_left (by linarith)
  · intro he
    exact min_eq_right (by linarith)

/-- C6 witness: the clamp evaluated at 10 ms of elapsed time (below the
cap) and at 100 ms (above the cap). -/
theorem c6_step_schedule_and_dt_clamp_witness :
    clampDt 10 = 10 / 1000 ∧ clampDt 100 = 16/1000 :=
  ⟨(c6_step_schedule_and_dt_clamp.2.2 10).2.1 (by norm_num),
   (c6_step_schedule_and_dt_clamp.2.2 100).2.2 (by norm_num)⟩

theorem addSplat_isTransitioning (g : GpuSem) (s : SimState) (x y dx dy cr cg cb : ℚ) :
    (addSplat g s x y dx dy cr cg cb).isTransitioning = s.isTransitioning := rfl

theorem addSplat_energy (g : GpuSem) (s : SimState) (x y dx dy cr cg cb : ℚ) :
    (addSplat g s x y dx dy cr cg cb).totalSplatEnergy = s.totalSplatEnergy := rfl

theorem pointerPhase_triggers (sq : ℚ → ℚ) (g : GpuSem) (s : SimState) (now dt : ℚ)
    (h1 : s.isTransitioning = false) (h2 : s.pointer.moved = true)
    (h3 : ADVANCE_ENERGY < s.totalSplatEnergy
          + sq (s.pointer.dx * s.pointer.dx + s.pointer.dy * s.pointer.dy)) :
    (pointerPhase sq g s now dt).isTransitioning = true ∧
    (pointerPhase sq g s now dt).transitionStart = now := by
  unfold pointerPhase checkAdvance startTransition
  rw [if_pos h2]
  dsimp only
  split
  · rename_i hcond
    have hx : s.isTransitioning = true := hcond
    rw [h1] at hx
    exact Bool.noConfusion hx
  · split
    · exact ⟨rfl, rfl⟩
    · rename_i hcond2
      exact absurd h3 hcond2

/-- C7: the advance threshold `ADVANCE_ENERGY` is 8000; `checkAdvance` is a
no-op while transitioning (the condition is evaluated only while idle) and,
while idle, starts a transition exactly when the accumulated energy strictly
exceeds the threshold; consequently a single pointer event of speed 8001
arriving on an idle tick with zero accumulated energy flips the state to
transitioning within that same tick. -/
theorem c7_threshold_trigger :
    ADVANCE_ENERGY = 8000 ∧
    (∀ (s : SimState) (now : ℚ), s.isTransitioning = true → checkAdvance s now = s) ∧
    (∀ (s : SimState) (now : ℚ), s.isTransitioning = false →
      ((checkAdvance s now).isTransitioning = true ↔ ADVANCE_ENERGY < s.totalSplatEnergy)) ∧
    (∀ (sq : ℚ → ℚ) (g : GpuSem) (s : SimState) (now : ℚ),
      s.isTransitioning = false → s.totalSplatEnergy = 0 → s.pointer.moved = true →
      sq (s.pointer.dx * s.pointer.dx + s.pointer.dy * s.pointer.dy) = 8001 →
      (renderTick sq g s now).isTransitioning = true) := by
  refine ⟨rfl, fun s now h => checkAdvance_of_transitioning s now h, ?_, ?_⟩
  · intro s now h
    unfold checkAdvance startTransition
    rw [if_neg (by rw [h]; exact Bool.false_ne_true)]
    by_cases he : s.totalSplatEnergy > ADVANCE_ENERGY
    · rw [if_pos he]
      exact ⟨fun _ => he, fun _ => rfl⟩
    · rw [if_neg he]
      exact ⟨fun ht => absurd (h ▸ ht) Bool.false_ne_true, fun hlt => absurd hlt he⟩
  · intro sq g s now h1 h2 h3 h4
    rw [renderTick_eq]
    have hps : (postStep sq g s now).isTransitioning = true ∧
        (postStep sq g s now).transitionStart = now := by
      refine pointerPhase_triggers sq g { s with lastTime := now } now _ h1 h3 ?_
      show ADVANCE_ENERGY < s.totalSplatEnergy
        + sq (s.pointer.dx * s.pointer.dx + s.pointer.dy * s.pointer.dy)
      rw [h2, h4]
      norm_num [ADVANCE_ENERGY]
    have hr : (now - (postStep sq g s now).transitionStart) / TRANSITION_DURATION < 1 := by
      rw [hps.2, sub_self, zero_div]
      norm_num
    rw [updateTransition_progress _ _ hps.1 hr]
    exact hps.1

/-- C7 witness: on the idle 1×1 fixture with zero energy, a pointer event
of displacement (8001, 0) — speed 8001 under a square root that maps
8001² to 8001 — flips the machine to transitioning on that tick. -/
theorem c7_threshold_trigger_witness :
    (renderTick sqTable trivialGpu
        { tinyState with
          pointer := { x := 0, y := 0, dx := 8001, dy := 0, moved := true } }
        5).isTransitioning = true := by
  refine c7_threshold_trigger.2.2.2 sqTable trivialGpu
    { tinyState with
      pointer := { x := 0, y := 0, dx := 8001, dy := 0, moved := true } }
    5 rfl rfl rfl ?_
  norm_num [sqTable]

/-- C9: pointer movement on a tick taken during a transition still adds its
speed to the accumulated energy (accumulation is not gated on the idle
state), yet such a tick never starts a new transition — the trigger check
returns early, the transition start time is untouched — and the tick that
completes the transition sets the energy to exactly 0, so movement during a
transition never counts toward triggering the next one. -/
theorem c9_energy_not_gated_but_reset (sq : ℚ → ℚ) (g : GpuSem) (s : SimState) (now : ℚ)
    (h1 : s.isTransitioning = true) :
    ((now - s.transitionStart) / TRANSITION_DURATION < 1 →
      (renderTick sq g s now).isTransitioning = true ∧
      (renderTick sq g s now).transitionStart = s.transitionStart ∧
      (s.pointer.moved = true →
        (renderTick sq g s now).totalSplatEnergy
          = s.totalSplatEnergy
            + sq (s.pointer.dx * s.pointer.dx + s.pointer.dy * s.pointer.dy))) ∧
    (1 ≤ (now - s.transitionStart) / TRANSITION_DURATION →
      (renderTick sq g s now).totalSplatEnergy = 0 ∧
      (renderTick sq g s now).isTransitioning = false) := by
  have hps := postStep_of_transitioning sq g s now h1
  constructor
  · intro hr
    have hr' : (now - (postStep sq g s now).transitionStart) / TRANSITION_DURATION < 1 := by
      rw [hps.2]
      exact hr
    rw [renderTick_eq, updateTransition_progress _ _ hps.1 hr']
    refine ⟨hps.1, hps.2, ?_⟩
    intro hm
    show (postStep sq g s now).totalSplatEnergy = _
    rw [postStep_energy, if_pos hm]
  · intro hr
    have hr' : 1 ≤ (now - (postStep sq g s now).transitionStart) / TRANSITION_DURATION := by
      rw [hps.2]
      exact hr
    rw [renderTick_eq, updateTransition_complete _ _ hps.1 hr']
    exact ⟨rfl, rfl⟩

/-- C9 witness: on a transitioning 1×1 fixture halfway through the fade
(tick at 600 ms), a pointer event of displacement (3,4) — speed 5 — raises
the accumulated energy from 2 to 2 + 5. -/
theorem c9_energy_not_gated_but_reset_witness :
    (renderTick sqTable trivialGpu
        { tinyState with
          isTransitioning := true
          totalSplatEnergy := 2
          pointer := { x := 1, y := 1, dx := 3, dy := 4, moved := true } }
        600).totalSplatEnergy = 2 + sqTable (3 * 3 + 4 * 4) := by
  have h := (c9_energy_not_gated_but_reset sqTable trivialGpu
    { tinyState with
      isTransitioning := true
      totalSplatEnergy := 2
      pointer := { x := 1, y := 1, dx := 3, dy := 4, moved := true } }
    600 rfl).1 (by norm_num [tinyState, TRANSITION_DURATION])
  exact h.2.2 rfl

/-- C4 counterexample: resizing to 2×1 while a transition is halfway
through (blend 1/2) with accumulated energy 5 leaves `isTransitioning`,
`blendFactor` and `totalSplatEnergy` exactly as they were — none of them is
reset, contradicting the claim that resize discards the in-flight
transition state and the accumulated energy. -/
theorem c4_resize_keeps_transition_state_counterexample :
    (resize { tinyState with
        isTransitioning := true
        blendFactor := 1/2
        totalSplatEnergy := 5 } 2 1).isTransitioning = true ∧
    (resize { tinyState with
        isTransitioning := true
        blendFactor := 1/2
        totalSplatEnergy := 5 } 2 1).blendFactor = 1/2 ∧
    (resize { tinyState with
        isTransitioning := true
        blendFactor := 1/2
        totalSplatEnergy := 5 } 2 1).totalSplatEnergy = 5 :=
  ⟨rfl, rfl, rfl⟩

/-- C4 (amended): the resize listener reallocates all four fields at the
freshly computed resolutions — zero-cleared contents, so the visual mask is
discarded — and updates the canvas size, but leaves every other state
variable (`isTransitioning`, `blendFactor`, `totalSplatEnergy`, the image
indices, the transition start time, the pointer and the clock) unchanged. -/
theorem c4_resize_reallocates_fields_only (s : SimState) (w h : Nat) :
    (resize s w h).fields = allocFields w h ∧
    (resize s w h).fields.velocity
      = createDoubleFBO (getRes w h (CONFIG.SIM_RESOLUTION : ℚ)).1
          (getRes w h (CONFIG.SIM_RESOLUTION : ℚ)).2 ∧
    (resize s w h).fields.dye
      = createDoubleFBO (getRes w h (CONFIG.DYE_RESOLUTION : ℚ)).1
          (getRes w h (CONFIG.DYE_RESOLUTION : ℚ)).2 ∧
    (resize s w h).fields.divergence
      = createFBO (getRes w h (CONFIG.SIM_RESOLUTION : ℚ)).1
          (getRes w h (CONFIG.SIM_RESOLUTION : ℚ)).2 ∧
    (resize s w h).fields.pressure
      = createDoubleFBO (getRes w h (CONFIG.SIM_RESOLUTION : ℚ)).1
          (getRes w h (CONFIG.SIM_RESOLUTION : ℚ)).2 ∧
    (resize s w h).canvasW = w ∧
    (resize s w h).canvasH = h ∧
    (resize s w h).isTransitioning = s.isTransitioning ∧
    (resize s w h).blendFactor = s.blendFactor ∧
    (resize s w h).totalSplatEnergy = s.totalSplatEnergy ∧
    (resize s w h).transitionStart = s.transitionStart ∧
    (resize s w h).currentImageIdx = s.currentImageIdx ∧
    (resize s w h).nextImageIdx = s.nextImageIdx ∧
    (resize s w h).pointer = s.pointer ∧
    (resize s w h).lastTime = s.lastTime :=
  ⟨rfl, rfl, rfl, rfl, rfl, rfl, rfl, rfl, rfl, rfl, rfl, rfl, rfl, rfl, rfl⟩

theorem createProgram_diag_of_throws (v f l : Bool) :
    (createProgram v f l).1 = none → (createProgram v f l).2 ≠ [] := by
  cases v <;> cases f <;> cases l <;> decide

theorem createProgram_some_compiles (v f l : Bool) (p : Option Unit)
    (h : (createProgram v f l).1 = some p) : v = true ∧ f = true := by
  cases v <;> cases f <;> cases l <;> simp_all [createProgram, compileShader]

/-- C2 counterexample: when every shader compiles but the advection program
fails to link (`LINK_STATUS` false), the script logs the diagnostic, keeps
the `null` program, and still reaches its final `render()` call — the
per-frame loop is entered with a failed program, so initialization did not
abort. -/
theorem c2_loop_entered_with_failed_program_counterexample :
    (startup failOutcomes).programs = some (linkedPrograms failOutcomes) ∧
    (linkedPrograms failOutcomes).advection = none ∧
    (startup failOutcomes).renderEntered = true ∧
    (startup failOutcomes).diagnostics ≠ [] := by
  refine ⟨rfl, rfl, rfl, ?_⟩
  decide

/-- C2 (amended): a failed shader compile logs its diagnostic and then
halts the script with a `TypeError` at `gl.attachShader` (whose shader
parameter is non-nullable) — later programs are never built and `render()`
is never reached, so after a compile failure the per-frame loop is not
entered, though the halt is an uncaught exception rather than an orderly
abort.  A program whose shaders compile but whose link fails only logs a
diagnostic and stays `null`, with no retry and no fallback; initialization
then does not abort: `render()` is still invoked, the per-frame loop is
entered with the failed program, and its first frame throws at the first
dereference of a `null` program (advection, divergence, pressure,
gradient-subtract or display — splat only after pointer movement).  In
every case each program is built at most once. -/
theorem c2_failure_logged_but_no_abort (o : ProgramOutcomes) :
    (compilesOk o = false →
      (startup o).programs = none ∧
      (startup o).renderEntered = false ∧
      (startup o).diagnostics ≠ []) ∧
    (compilesOk o = true →
      (startup o).renderEntered = true ∧
      (startup o).programs = some (linkedPrograms o) ∧
      ((linkedPrograms o).advection = none ↔ o.advLinkOk = false) ∧
      ((linkedPrograms o).advection = none →
        (startup o).diagnostics ≠ [] ∧ firstFrameThrows (linkedPrograms o) = true) ∧
      ((linkedPrograms o).display = none →
        (startup o).diagnostics ≠ [] ∧ firstFrameThrows (linkedPrograms o) = true)) ∧
    (startup o).builds.Nodup := by
  refine ⟨?_, ?_, ?_⟩
  · intro hc
    unfold startup
    dsimp only
    split
    · rename_i h1
      exact ⟨rfl, rfl, createProgram_diag_of_throws _ _ _ h1⟩
    · rename_i pAdv h1
      split
      · rename_i h2
        refine ⟨rfl, rfl, ?_⟩
        intro hnil
        simp only [List.append_eq_nil] at hnil
        exact createProgram_diag_of_throws _ _ _ h2 hnil.2
      · rename_i pDvg h2
        split
        · rename_i h3
          refine ⟨rfl, rfl, ?_⟩
          intro hnil
          simp only [List.append_eq_nil] at hnil
          exact createProgram_diag_of_throws _ _ _ h3 hnil.2
        · rename_i pPrs h3
          split
          · rename_i h4
            refine ⟨rfl, rfl, ?_⟩
            intro hnil
            simp only [List.append_eq_nil] at hnil
            exact createProgram_diag_of_throws _ _ _ h4 hnil.2
          · rename_i pGrd h4
            split
            · rename_i h5
              refine ⟨rfl, rfl, ?_⟩
              intro hnil
              simp only [List.append_eq_nil] at hnil
              exact createProgram_diag_of_throws _ _ _ h5 hnil.2
            · rename_i pSpl h5
              split
              · rename_i h6
                refine ⟨rfl, rfl, ?_⟩
                intro hnil
                simp only [List.append_eq_nil] at hnil
                exact createProgram_diag_of_throws _ _ _ h6 hnil.2
              · rename_i pDsp h6
                have d1 := createProgram_some_compiles _ _ _ _ h1
                have d2 := createProgram_some_compiles _ _ _ _ h2
                have d3 := createProgram_some_compiles _ _ _ _ h3
                have d4 := createProgram_some_compiles _ _ _ _ h4
                have d5 := createProgram_some_compiles _ _ _ _ h5
                have d6 := createProgram_some_compiles _ _ _ _ h6
                simp [compilesOk, d1.1, d1.2, d2.2, d3.2, d4.2, d5.2, d6.2] at hc
  · intro hc
    obtain ⟨v, a1, a2, a3, a4, a5, a6, l1, l2, l3, l4, l5, l6⟩ := o
    simp only [compilesOk, Bool.and_eq_true] at hc
    obtain ⟨⟨⟨⟨⟨⟨hv, h1⟩, h2⟩, h3⟩, h4⟩, h5⟩, h6⟩ := hc
    subst hv h1 h2 h3 h4 h5 h6
    cases l1 <;> cases l2 <;> cases l3 <;> cases l4 <;> cases l5 <;> cases l6 <;> decide
  · unfold startup
    dsimp only
    split
    · show List.Nodup ["advection"]
      decide
    · split
      · show List.Nodup ["advection", "divergence"]
        decide
      · split
        · show List.Nodup ["advection", "divergence", "pressure"]
          decide
        · split
          · show List.Nodup ["advection", "divergence", "pressure", "gradientSubtract"]
            decide
          · split
            · show List.Nodup
                ["advection", "divergence", "pressure", "gradientSubtract", "splat"]
              decide
            · split
              · show List.Nodup
                  ["advection", "divergence", "pressure", "gradientSubtract", "splat", "display"]
                decide
              · show List.Nodup
                  ["advection", "divergence", "pressure", "gradientSubtract", "splat", "display"]
                decide

/-- C2 witness: the amended theorem at concrete outcomes — a compile
failure of the advection fragment shader halts the script before
`render()`, while the advection link failure leaves `render()` entered with
a first frame that throws. -/
theorem c2_failure_logged_but_no_abort_witness :
    (startup compileFailOutcomes).renderEntered = false ∧
    (startup failOutcomes).renderEntered = true ∧
    firstFrameThrows (linkedPrograms failOutcomes) = true :=
  ⟨((c2_failure_logged_but_no_abort compileFailOutcomes).1 (by decide)).2.1,
   ((c2_failure_logged_but_no_abort failOutcomes).2.1 (by decide)).1,
   (((c2_failure_logged_but_no_abort failOutcomes).2.1 (by decide)).2.2.2.1 (by decide)).2⟩
